import Mathlib

/-!
Verification of the bunq-labs website grass/wind core against its
natural-language specification.

The Lean definitions below are shallow embeddings of the JavaScript source:

* `QM`      — src/js/utils/QualityManager.js (second revision in the file,
              the one with `enableGrass` flags, paired with the GrassScene
              revision the claims reference)
* `PM`      — src/js/utils/PerformanceMonitor.js (`endBenchmark`)
* `WindField` — the WindField fragment shader of
              src/js/components/TestimonialsSlider.js (identical copy in
              src/unnamed/part_003); the GPU floating-point texels become
              exact rationals
* `Grass`   — src/js/scenes/GrassScene.js (second revision, after the
              document separator): the vertex-shader scroll wrap, the
              pointer displacement clamp, and the instance-count bookkeeping
              of `initGrass` / `onQualityChange`

Numbers that are IEEE doubles in the source are modelled as `ℚ` where the
source only adds, multiplies, divides and compares, and as `ℝ` where the
source calls `Math.sqrt` or `exp`.
-/

namespace QM

/-- One record of the `QualityProfiles` table of QualityManager.js
(second revision: `grassCount` 24000/12000/6000/3000/500, with
`useDynamicLight` and `enableGrass` flags). -/
structure Profile where
  tier : String
  grassCount : ℕ
  windResolution : ℕ
  bladeSegments : ℕ
  maxDPR : ℚ
  shadows : Bool
  postProcessing : Bool
  useDynamicLight : Bool
  enableGrass : Bool
deriving DecidableEq, Repr

/-- The own entries of the `QualityProfiles` object literal: the five tier
rows it declares itself. -/
def ownProfile (name : String) : Option Profile :=
  if name = "ULTRA" then
    some ⟨"ULTRA", 24000, 32, 1, 2, true, false, true, true⟩
  else if name = "HIGH" then
    some ⟨"HIGH", 12000, 32, 1, 3/2, false, false, true, true⟩
  else if name = "MEDIUM" then
    some ⟨"MEDIUM", 6000, 16, 1, 5/4, false, false, true, true⟩
  else if name = "LOW" then
    some ⟨"LOW", 3000, 8, 1, 1, false, false, false, false⟩
  else if name = "POTATO" then
    some ⟨"POTATO", 500, 8, 1, 4/5, false, false, false, false⟩
  else
    none

/-- What JavaScript property access on the `QualityProfiles` object can
evaluate to: one of its own profile rows, a member inherited from
`Object.prototype` (a function, or `Object.prototype` itself for the
dunder-proto key — truthy either way), or `undefined` (falsy). -/
inductive LookupValue where
  | profile (p : Profile)
  | inherited
  | undef
deriving DecidableEq, Repr

/-- The property names every object literal inherits from
`Object.prototype`, for which `QualityProfiles[name]` is truthy even
though the table declares no such tier. -/
def objectPrototypeKeys : List String :=
  ["constructor", "hasOwnProperty", "isPrototypeOf", "propertyIsEnumerable",
   "toLocaleString", "toString", "valueOf", "__proto__", "__defineGetter__",
   "__defineSetter__", "__lookupGetter__", "__lookupSetter__"]

/-- JavaScript property access `QualityProfiles[tierName]`: an own tier
row when one is declared, otherwise the prototype chain is consulted, so
`Object.prototype` members resolve to truthy values; only genuinely
absent names give `undefined`. -/
def QualityProfiles (name : String) : LookupValue :=
  match ownProfile name with
  | some p => LookupValue.profile p
  | none =>
    if objectPrototypeKeys.contains name then LookupValue.inherited
    else LookupValue.undef

/-- The mutable state of a `QualityManager`: its `currentTier` string.
Listener callbacks are modelled by the list of values a call broadcasts
(one entry per `callback(profile)` round; the entry is whatever
`QualityProfiles[tierName]` evaluated to). -/
structure State where
  currentTier : String
deriving DecidableEq, Repr

/-- `QualityManager.setTier(tierName)`: the guard
`!QualityProfiles[tierName]` only fires when the lookup is falsy
(`undefined`); a truthy lookup — an own tier row or an inherited
`Object.prototype` member — passes it, so unless the tier is already
current, `currentTier` is overwritten and every listener is called with
the looked-up value. Returns the new state with the broadcast
notifications. -/
def setTier (st : State) (name : String) : State × List LookupValue :=
  match QualityProfiles name with
  | LookupValue.undef => (st, [])
  | v => if st.currentTier = name then (st, []) else (⟨name⟩, [v])

/-- The ordered tier ladder used by `adjustQuality` (and re-declared in
`PerformanceMonitor.endBenchmark`). -/
def tiers : List String := ["POTATO", "LOW", "MEDIUM", "HIGH", "ULTRA"]

/-- JavaScript `Array.prototype.indexOf`: the index of the first occurrence,
`-1` when absent. -/
def jsIndexOf : List String → String → ℤ
  | [], _ => -1
  | a :: as, x =>
    if a = x then 0 else
      let r := jsIndexOf as x
      if r < 0 then -1 else r + 1

/-- `QualityManager.adjustQuality(direction)`: step one position along the
tier ladder, clamped to the ends; returns whether a change occurred. -/
def adjustQuality (st : State) (direction : ℤ) : State × Bool :=
  let currentIndex := jsIndexOf tiers st.currentTier
  let newIndex := max 0 (min (currentIndex + direction) ((tiers.length : ℤ) - 1))
  if newIndex ≠ currentIndex then
    ((setTier st (tiers.getD newIndex.toNat "")).1, true)
  else
    (st, false)

/-- One repeated downgrade request: the state left by `adjustQuality(-1)`. -/
def adjDown (st : State) : State := (adjustQuality st (-1)).1

/-- One repeated upgrade request: the state left by `adjustQuality(+1)`. -/
def adjUp (st : State) : State := (adjustQuality st 1).1

end QM

namespace PM

/-- Insert into an ascending list, keeping it ascending. -/
def insertAsc (x : ℚ) : List ℚ → List ℚ
  | [] => [x]
  | y :: ys => if x ≤ y then x :: y :: ys else y :: insertAsc x ys

/-- `data.sort((a, b) => a - b)`: the frame-interval samples in ascending
order. Modelled by insertion sort; for numeric keys the sorted value list
is unique, so this is observationally the JavaScript sort. -/
def sortAsc (l : List ℚ) : List ℚ := l.foldr insertAsc []

/-- `data[Math.floor(sampleCount * 0.5)]` of the sorted samples: the
median accessor of `endBenchmark`. -/
def medianOf (samples : List ℚ) : ℚ :=
  (sortAsc samples).getD (samples.length / 2) 0

/-- `data[Math.floor(sampleCount * 0.9)]` of the sorted samples: the
tail-latency accessor of `endBenchmark`. -/
def p90Of (samples : List ℚ) : ℚ :=
  (sortAsc samples).getD (9 * samples.length / 10) 0

/-- Step 4 of `endBenchmark` in isolation: the tier the median-derived
frame rate picks through the fixed breakpoints, before the tail-latency
penalty and the hardware cap. -/
def tierFromMedianFPS (medianFPS : ℚ) : String :=
  if medianFPS < 20 then "POTATO"
  else if medianFPS < 35 then "LOW"
  else if medianFPS < 50 then "MEDIUM"
  else "HIGH"

/-- `PerformanceMonitor.endBenchmark()`, as a function from the recorded
frame-interval samples (ms) and `navigator.hardwareConcurrency` to the tier
name passed to `qm.setTier`. Fewer than 10 samples defaults to MEDIUM;
otherwise the median-based pick is stepped down one tier when the 90th
percentile exceeds 60 ms, then clamped below the core-count cap.
`Math.floor(n * 0.9)` is modelled as `9 * n / 10` in `ℕ`, which agrees
with the double computation for every realistic sample count. -/
def endBenchmark (samples : List ℚ) (cores : ℕ) : String :=
  if samples.length < 10 then "MEDIUM"
  else
    let median := medianOf samples
    let p90 := p90Of samples
    let medianFPS := 1000 / median
    let maxTier := if cores < 4 then "MEDIUM" else if cores < 8 then "HIGH" else "ULTRA"
    let targetTier := tierFromMedianFPS medianFPS
    let targetTier :=
      if 60 < p90 ∧ targetTier ≠ "POTATO" then
        let idx := QM.jsIndexOf QM.tiers targetTier
        if 0 < idx then QM.tiers.getD (idx - 1).toNat targetTier else targetTier
      else targetTier
    let targetIdx := QM.jsIndexOf QM.tiers targetTier
    let maxIdx := QM.jsIndexOf QM.tiers maxTier
    if maxIdx < targetIdx then maxTier else targetTier

end PM

namespace Grass

/-- `Config.Grass.maxGrassCount` (src/unnamed/part_013). -/
def maxGrassCount : ℕ := 25000

/-- `Config.Grass.mobileMaxGrassCount` (src/unnamed/part_013). -/
def mobileMaxGrassCount : ℕ := 15000

/-- `Config.Grass.bladeHeight` (src/unnamed/part_013). -/
noncomputable def bladeHeight : ℝ := 6/5

/-- `Config.Grass.maxWindOffset` (src/unnamed/part_013). -/
noncomputable def maxWindOffset : ℝ := 1

/-- `Math.ceil(a / b)` for natural `a` and positive natural `b`. -/
def ceilDiv (a b : ℕ) : ℕ := (a + b - 1) / b

/-- The instance bookkeeping of the grass renderer: the clump size the
geometry was last built with, the blade budget the build used
(`maxGrassCount` on desktop, `mobileMaxGrassCount` on mobile), the number
of clump instances allocated in the `InstancedMesh`, and the active
`grass.count`. -/
structure GrassState where
  clumpSize : ℕ
  allocBasis : ℕ
  allocatedClumps : ℕ
  count : ℕ
deriving DecidableEq, Repr

/-- `GrassScene.initGrass()`: allocates
`maxClumpCount = Math.ceil(maxTotalBlades / clumpSize)` clump instances,
where `maxTotalBlades` is the mobile or desktop maximum from Config; the
fresh `InstancedMesh` starts with all allocated instances active. -/
def initGrass (isMobile : Bool) (clumpSize : ℕ) : GrassState :=
  let basis := if isMobile then mobileMaxGrassCount else maxGrassCount
  let m := ceilDiv basis clumpSize
  ⟨clumpSize, basis, m, m⟩

/-- `GrassScene.onQualityChange(profile)` restricted to the instance
bookkeeping: early return when the profile disables grass; rebuild
(`initGrass`) when the clump size changed (no profile defines `clumpSize`,
so `profile.clumpSize || 10` is always 10); otherwise a pure count write
`grass.count = Math.floor(Math.min(profile.grassCount, this.maxGrassCount)
/ clumpSize)` with `this.maxGrassCount = Config.Grass.maxGrassCount`.
The boolean of the result records whether the geometry was rebuilt. -/
def onQualityChange (st : GrassState) (p : QM.Profile) (isMobileNow : Bool) :
    GrassState × Bool :=
  if p.enableGrass = false then (st, false)
  else
    let newClumpSize := 10
    if st.clumpSize ≠ newClumpSize then
      (initGrass isMobileNow newClumpSize, true)
    else
      let targetTotalBlades := min p.grassCount maxGrassCount
      let targetClumps := targetTotalBlades / newClumpSize
      ({ st with count := targetClumps }, false)

/-- The ULTRA row of the quality profile table (second revision). -/
def profileULTRA : QM.Profile :=
  ⟨"ULTRA", 24000, 32, 1, 2, true, false, true, true⟩

/-- The effective Z position the grass vertex shader computes for an
instance: with `extentZ = planeExtent.y`, it wraps
`zNorm = fract(basePos.z / max(extentZ, 1e-5) - scrollOffsetNorm + 0.5)
- 0.5` and scales back, `newZBase = zNorm * extentZ`
(grassVertexShader in GrassScene.js). -/
def effectiveZ (extentZ homeZ scrollOffsetNorm : ℚ) : ℚ :=
  let zNorm0 := homeZ / max extentZ (1/100000)
  let zNorm := Int.fract (zNorm0 - scrollOffsetNorm + 1/2) - 1/2
  zNorm * extentZ

/-- `THREE.Vector2.length()`: the Euclidean length. -/
noncomputable def vecLen (v : ℝ × ℝ) : ℝ := Real.sqrt (v.1 * v.1 + v.2 * v.2)

/-- The pointer-displacement clamp of `GrassScene.update`:
`if (dir.length() > maxLen) dir.setLength(maxLen)`, with
`THREE.Vector2.setLength` being normalize (divide by `length() || 1`)
followed by scaling with `maxLen`. -/
noncomputable def clampDisplacement (v : ℝ × ℝ) (maxLen : ℝ) : ℝ × ℝ :=
  if maxLen < vecLen v then
    let d := if vecLen v = 0 then 1 else vecLen v
    (v.1 / d * maxLen, v.2 / d * maxLen)
  else v

end Grass

namespace WindField

/-- A velocity texture of resolution `(n+1) × (n+1)`: a 2-component
rational velocity per texel (the render targets store half or full floats;
the embedding is exact arithmetic). -/
def VelField (n : ℕ) : Type := Fin (n + 1) → Fin (n + 1) → ℚ × ℚ

/-- Squared Euclidean magnitude of a texel velocity. -/
def normSq (v : ℚ × ℚ) : ℚ := v.1 * v.1 + v.2 * v.2

/-- GLSL `mix(a, b, t)` on 2-vectors: `a * (1 - t) + b * t`. -/
def lerpV (t : ℚ) (a b : ℚ × ℚ) : ℚ × ℚ :=
  ((1 - t) * a.1 + t * b.1, (1 - t) * a.2 + t * b.2)

/-- GLSL `clamp(x, lo, hi) = min(max(x, lo), hi)`. -/
def clampG (x lo hi : ℚ) : ℚ := min (max x lo) hi

/-- Clamp-to-edge texel index (the render targets use the THREE default
`ClampToEdgeWrapping`). -/
def clampIdx (n : ℕ) (i : ℤ) : Fin (n + 1) :=
  ⟨min i.toNat n, by omega⟩

/-- Fetch a texel with clamp-to-edge addressing. -/
def texelFetch {n : ℕ} (f : VelField n) (i j : ℤ) : ℚ × ℚ :=
  f (clampIdx n i) (clampIdx n j)

/-- `texture2D(tVelocity, uv).xy` with bilinear filtering (the render
targets use `LinearFilter` on the preferred half-float-linear path) and
clamp-to-edge addressing: texel centers sit at `(i + 0.5) / size`. -/
def sampleVel {n : ℕ} (f : VelField n) (uv : ℚ × ℚ) : ℚ × ℚ :=
  let size : ℚ := (n : ℚ) + 1
  let x := uv.1 * size - 1/2
  let y := uv.2 * size - 1/2
  let i0 : ℤ := ⌊x⌋
  let j0 : ℤ := ⌊y⌋
  let fx := Int.fract x
  let fy := Int.fract y
  lerpV fy (lerpV fx (texelFetch f i0 j0) (texelFetch f (i0 + 1) j0))
    (lerpV fx (texelFetch f i0 (j0 + 1)) (texelFetch f (i0 + 1) (j0 + 1)))

/-- One step of the WindField fragment shader with the brush inactive.
`WindField.update` sets `brushPos = (-1, -1)` when no mouse UV is supplied,
so the injection guard `brushPos.x >= 0.0` fails and the branch (the only
non-rational computation of the shader) contributes nothing; the remaining
body is translated verbatim: semi-Lagrangian advection, 5-sample box blur
mixed in by the clamped diffusion factor, then the clamped decay factor. -/
def stepNoBrush {n : ℕ} (decay diffusion advection dt : ℚ) (f : VelField n) :
    VelField n := fun i j =>
  let size : ℚ := (n : ℚ) + 1
  let uv : ℚ × ℚ := (((i : ℚ) + 1/2) / size, ((j : ℚ) + 1/2) / size)
  let texel : ℚ := 1 / size
  let velPrev := sampleVel f uv
  let advUV : ℚ × ℚ :=
    (uv.1 - advection * dt * velPrev.1, uv.2 - advection * dt * velPrev.2)
  let adv := sampleVel f advUV
  let s1 := sampleVel f (uv.1 + texel, uv.2)
  let s2 := sampleVel f (uv.1 - texel, uv.2)
  let s3 := sampleVel f (uv.1, uv.2 + texel)
  let s4 := sampleVel f (uv.1, uv.2 - texel)
  let sum : ℚ × ℚ :=
    (adv.1 + s1.1 + s2.1 + s3.1 + s4.1, adv.2 + s1.2 + s2.2 + s3.2 + s4.2)
  let blurred : ℚ × ℚ := (sum.1 / 5, sum.2 / 5)
  let vel := lerpV (clampG diffusion 0 1) adv blurred
  let dec := clampG decay 0 1
  (vel.1 * dec, vel.2 * dec)

/-- The largest squared texel magnitude of a field. -/
def maxNormSq {n : ℕ} (f : VelField n) : ℚ :=
  Finset.sup' Finset.univ Finset.univ_nonempty
    (fun p : Fin (n + 1) × Fin (n + 1) => normSq (f p.1 p.2))

/-- The all-zero field the simulator starts from (`clear()`). -/
def zeroField (n : ℕ) : VelField n := fun _ _ => (0, 0)

/-- The injection-branch Gaussian of the shader:
`r = max(injectionRadius, 1e-5); w = exp(-0.5 * distSq / (r * r))`. -/
noncomputable def injectionWeight (radius distSq : ℝ) : ℝ :=
  let r := max radius (1/100000)
  Real.exp (-(1/2) * distSq / (r * r))

/-- The impulse the shader adds to a texel when the brush is active:
`brushDir * (min(injectionStrength, injectionStrengthMax) * w)` with `w`
the Gaussian falloff of the distance from `uv` to `brushPos`. -/
noncomputable def injectionTerm (strength strengthMax radius : ℝ)
    (brushPos uv brushDir : ℝ × ℝ) : ℝ × ℝ :=
  let diff := (uv.1 - brushPos.1, uv.2 - brushPos.2)
  let distSq := diff.1 * diff.1 + diff.2 * diff.2
  let w := injectionWeight radius distSq
  let s := min strength strengthMax
  (brushDir.1 * (s * w), brushDir.2 * (s * w))

/-- The injection guard of the shader:
`brushPos.x >= 0.0 && brushPos.x <= 1.0 && brushPos.y >= 0.0 && brushPos.y <= 1.0`. -/
def brushActive (brushPos : ℝ × ℝ) : Prop :=
  0 ≤ brushPos.1 ∧ brushPos.1 ≤ 1 ∧ 0 ≤ brushPos.2 ∧ brushPos.2 ≤ 1

end WindField

namespace QM

theorem adjustQuality_potato_fixed (st : State) (h : st.currentTier = "POTATO") :
    adjustQuality st (-1) = (st, false) := by
  obtain ⟨t⟩ := st
  simp only [State.mk.injEq] at h
  subst h
  rfl

theorem adjustQuality_ultra_fixed (st : State) (h : st.currentTier = "ULTRA") :
    adjustQuality st 1 = (st, false) := by
  obtain ⟨t⟩ := st
  simp only [State.mk.injEq] at h
  subst h
  rfl

end QM

/-- Claim C7: at the lowest tier, `adjustQuality(-1)` returns `false` and
leaves the tier unchanged no matter how often it is repeated; symmetrically
`adjustQuality(+1)` at the highest tier. -/
theorem c7_adjustQuality_boundary (st : QM.State) (k : ℕ) :
    (st.currentTier = "POTATO" →
      QM.adjDown^[k] st = st ∧ QM.adjustQuality st (-1) = (st, false)) ∧
    (st.currentTier = "ULTRA" →
      QM.adjUp^[k] st = st ∧ QM.adjustQuality st 1 = (st, false)) := by
  constructor
  · intro h
    refine ⟨?_, QM.adjustQuality_potato_fixed st h⟩
    induction k with
    | zero => rfl
    | succ n ih =>
      rw [Function.iterate_succ_apply, QM.adjDown,
        QM.adjustQuality_potato_fixed st h, ih]
  · intro h
    refine ⟨?_, QM.adjustQuality_ultra_fixed st h⟩
    induction k with
    | zero => rfl
    | succ n ih =>
      rw [Function.iterate_succ_apply, QM.adjUp,
        QM.adjustQuality_ultra_fixed st h, ih]

/-- Witness for C7: concrete boundary states, three repetitions each. -/
theorem c7_adjustQuality_boundary_witness :
    (QM.adjDown^[3] ⟨"POTATO"⟩ = ⟨"POTATO"⟩ ∧
      QM.adjustQuality ⟨"POTATO"⟩ (-1) = (⟨"POTATO"⟩, false)) ∧
    (QM.adjUp^[3] ⟨"ULTRA"⟩ = ⟨"ULTRA"⟩ ∧
      QM.adjustQuality ⟨"ULTRA"⟩ 1 = (⟨"ULTRA"⟩, false)) :=
  ⟨(c7_adjustQuality_boundary ⟨"POTATO"⟩ 3).1 rfl,
   (c7_adjustQuality_boundary ⟨"ULTRA"⟩ 3).2 rfl⟩

/-- Counterexample for C10 as stated: the name `constructor` is not one of
the five tiers of the profile table, yet `QualityProfiles.constructor`
resolves through the prototype chain to a truthy inherited member, so
`setTier` passes the invalid-name guard, overwrites the current tier with
`constructor` and notifies every listener with the inherited value. -/
theorem c10_proto_key_breaks_noop :
    QM.ownProfile "constructor" = none ∧
    QM.setTier ⟨"HIGH"⟩ "constructor" =
      (⟨"constructor"⟩, [QM.LookupValue.inherited]) ∧
    QM.setTier ⟨"HIGH"⟩ "constructor" ≠ ((⟨"HIGH"⟩ : QM.State), []) := by
  refine ⟨rfl, rfl, ?_⟩
  decide

/-- Claim C10 (amended): `setTier` with a name whose lookup on the profile
object is `undefined` — neither a declared tier nor an inherited
`Object.prototype` property name — leaves the current tier unchanged and
broadcasts no subscriber notifications. -/
theorem c10_setTier_invalid_noop (st : QM.State) (name : String)
    (h : QM.QualityProfiles name = QM.LookupValue.undef) :
    QM.setTier st name = (st, []) := by
  unfold QM.setTier
  rw [h]

/-- Witness for C10: the unknown name TURBO is a silent no-op from HIGH. -/
theorem c10_setTier_invalid_noop_witness :
    QM.setTier ⟨"HIGH"⟩ "TURBO" = (⟨"HIGH"⟩, []) :=
  c10_setTier_invalid_noop ⟨"HIGH"⟩ "TURBO" rfl

/-- Claim C9: a calibration run that recorded fewer than the minimum of
10 samples sets the MEDIUM tier directly instead of deriving a tier from
the samples. -/
theorem c9_benchmark_undersized_medium (samples : List ℚ) (cores : ℕ)
    (h : samples.length < 10) :
    PM.endBenchmark samples cores = "MEDIUM" := by
  unfold PM.endBenchmark
  rw [if_pos h]

/-- Witness for C9: a three-sample run on a 4-core machine. -/
theorem c9_benchmark_undersized_medium_witness :
    PM.endBenchmark [12, 55, 17] 4 = "MEDIUM" :=
  c9_benchmark_undersized_medium [12, 55, 17] 4 (by decide)

/-- Claim C5: with at least 10 samples, sorted median 40 ms and sorted
90th percentile 70 ms, the benchmark picks POTATO — at or below LOW and
exactly one ladder step below the LOW pick the median breakpoints alone
produce — for every core count. -/
theorem c5_benchmark_tail_penalty (samples : List ℚ) (cores : ℕ)
    (hn : ¬ samples.length < 10)
    (hm : PM.medianOf samples = 40)
    (hp : PM.p90Of samples = 70) :
    PM.endBenchmark samples cores = "POTATO" ∧
    PM.tierFromMedianFPS (1000 / PM.medianOf samples) = "LOW" ∧
    QM.jsIndexOf QM.tiers (PM.endBenchmark samples cores) + 1 =
      QM.jsIndexOf QM.tiers (PM.tierFromMedianFPS (1000 / PM.medianOf samples)) ∧
    QM.jsIndexOf QM.tiers (PM.endBenchmark samples cores) ≤
      QM.jsIndexOf QM.tiers "LOW" := by
  have hb : PM.endBenchmark samples cores = "POTATO" := by
    unfold PM.endBenchmark
    rw [if_neg hn, hm, hp]
    by_cases h4 : cores < 4
    · rw [if_pos h4]
      norm_num [PM.tierFromMedianFPS, QM.jsIndexOf, QM.tiers]
      decide
    · by_cases h8 : cores < 8
      · rw [if_neg h4, if_pos h8]
        norm_num [PM.tierFromMedianFPS, QM.jsIndexOf, QM.tiers]
        decide
      · rw [if_neg h4, if_neg h8]
        norm_num [PM.tierFromMedianFPS, QM.jsIndexOf, QM.tiers]
        decide
  have hmed : PM.tierFromMedianFPS (1000 / PM.medianOf samples) = "LOW" := by
    rw [hm]
    norm_num [PM.tierFromMedianFPS]
  refine ⟨hb, hmed, ?_, ?_⟩
  · rw [hb, hmed]
    rfl
  · rw [hb]
    decide

/-- Witness for C5: ten concrete samples with median 40 and p90 70,
benchmarked on an 8-core machine. -/
theorem c5_benchmark_tail_penalty_witness :
    PM.endBenchmark [40, 40, 40, 40, 40, 40, 40, 40, 40, 70] 8 = "POTATO" ∧
    PM.tierFromMedianFPS
      (1000 / PM.medianOf [40, 40, 40, 40, 40, 40, 40, 40, 40, 70]) = "LOW" ∧
    QM.jsIndexOf QM.tiers
        (PM.endBenchmark [40, 40, 40, 40, 40, 40, 40, 40, 40, 70] 8) + 1 =
      QM.jsIndexOf QM.tiers (PM.tierFromMedianFPS
        (1000 / PM.medianOf [40, 40, 40, 40, 40, 40, 40, 40, 40, 70])) ∧
    QM.jsIndexOf QM.tiers
        (PM.endBenchmark [40, 40, 40, 40, 40, 40, 40, 40, 40, 70] 8) ≤
      QM.jsIndexOf QM.tiers "LOW" :=
  c5_benchmark_tail_penalty [40, 40, 40, 40, 40, 40, 40, 40, 40, 70] 8
    (by decide) (by decide) (by decide)

/-- Claim C3: raising the normalized scroll offset by exactly 1 (one full
plane extent) leaves the shader-computed effective Z of every instance
unchanged — exactly, since `fract` has period 1. -/
theorem c3_scroll_wrap_periodic (extentZ homeZ s : ℚ) :
    Grass.effectiveZ extentZ homeZ (s + 1) = Grass.effectiveZ extentZ homeZ s := by
  show (Int.fract (homeZ / max extentZ (1/100000) - (s + 1) + 1/2) - 1/2) *
      extentZ =
    (Int.fract (homeZ / max extentZ (1/100000) - s + 1/2) - 1/2) * extentZ
  have h : homeZ / max extentZ (1/100000) - (s + 1) + 1/2 =
      homeZ / max extentZ (1/100000) - s + 1/2 - ((1 : ℤ) : ℚ) := by
    push_cast
    ring
  rw [h, Int.fract_sub_int]

namespace Grass

theorem div_le_ceilDiv (a b : ℕ) : a / b ≤ ceilDiv a b := by
  rcases Nat.eq_zero_or_pos b with hb | hb
  · subst hb
    simp [ceilDiv]
  · exact Nat.div_le_div_right (by omega)

end Grass

/-- Claim C6 (amended): for a grass build whose allocation basis covers the
capped blade request of the profile — always the case on desktop builds,
where the basis is `maxGrassCount`, the same constant the count write
clamps with — every tier change leaves the active count within the
allocated clump budget, and since every profile yields clump size 10 the
change is a pure count write, never a geometry rebuild. -/
theorem c6_count_within_budget (st : Grass.GrassState) (p : QM.Profile)
    (m : Bool)
    (hclump : st.clumpSize = 10)
    (halloc : st.allocatedClumps = Grass.ceilDiv st.allocBasis 10)
    (hcount : st.count ≤ st.allocatedClumps)
    (hbasis : min p.grassCount Grass.maxGrassCount ≤ st.allocBasis) :
    (Grass.onQualityChange st p m).1.count ≤
      (Grass.onQualityChange st p m).1.allocatedClumps ∧
    (Grass.onQualityChange st p m).2 = false := by
  unfold Grass.onQualityChange
  by_cases he : p.enableGrass = false
  · rw [if_pos he]
    exact ⟨hcount, rfl⟩
  · rw [if_neg he, if_neg (by rw [hclump]; exact fun hc => hc rfl)]
    refine ⟨?_, rfl⟩
    show min p.grassCount Grass.maxGrassCount / 10 ≤ st.allocatedClumps
    rw [halloc]
    calc min p.grassCount Grass.maxGrassCount / 10
        ≤ st.allocBasis / 10 := Nat.div_le_div_right hbasis
      _ ≤ Grass.ceilDiv st.allocBasis 10 := Grass.div_le_ceilDiv _ _

/-- Witness for C6: a desktop build (basis 25000, 2500 allocated clumps)
receiving the ULTRA profile. -/
theorem c6_count_within_budget_witness :
    (Grass.onQualityChange (Grass.initGrass false 10) Grass.profileULTRA
        false).1.count ≤
      (Grass.onQualityChange (Grass.initGrass false 10) Grass.profileULTRA
        false).1.allocatedClumps ∧
    (Grass.onQualityChange (Grass.initGrass false 10) Grass.profileULTRA
        false).2 = false :=
  c6_count_within_budget (Grass.initGrass false 10) Grass.profileULTRA false
    (by decide) (by decide) (by decide) (by decide)

/-- Counterexample for C6 as stated: a mobile build allocates
`ceil(15000 / 10) = 1500` clump instances, but the count write clamps with
the desktop maximum 25000, so the ULTRA profile (24000 blades) sets
`grass.count = 2400`, above the 1500 allocated instances. -/
theorem c6_mobile_ultra_exceeds_budget :
    (Grass.onQualityChange (Grass.initGrass true 10) Grass.profileULTRA
        true).1.count = 2400 ∧
    (Grass.onQualityChange (Grass.initGrass true 10) Grass.profileULTRA
        true).1.allocatedClumps = 1500 ∧
    ¬ (Grass.onQualityChange (Grass.initGrass true 10) Grass.profileULTRA
        true).1.count ≤
      (Grass.onQualityChange (Grass.initGrass true 10) Grass.profileULTRA
        true).1.allocatedClumps := by
  decide

namespace Grass

theorem vecLen_nonneg (v : ℝ × ℝ) : 0 ≤ vecLen v := Real.sqrt_nonneg _

theorem vecLen_scale (a : ℝ) (v : ℝ × ℝ) :
    vecLen (v.1 * a, v.2 * a) = |a| * vecLen v := by
  unfold vecLen
  rw [show v.1 * a * (v.1 * a) + v.2 * a * (v.2 * a) =
      a * a * (v.1 * v.1 + v.2 * v.2) by ring,
    Real.sqrt_mul (mul_self_nonneg a), Real.sqrt_mul_self_eq_abs]

end Grass

/-- Claim C4: the pointer-to-ground displacement passed to the wind
simulator has length at most `bladeHeight * maxWindOffset` after the
clamp, for every frame-to-frame ground-point jump. -/
theorem c4_displacement_clamped (v : ℝ × ℝ) :
    Grass.vecLen (Grass.clampDisplacement v
        (Grass.bladeHeight * Grass.maxWindOffset)) ≤
      Grass.bladeHeight * Grass.maxWindOffset := by
  have hm : 0 < Grass.bladeHeight * Grass.maxWindOffset := by
    unfold Grass.bladeHeight Grass.maxWindOffset
    norm_num
  set m := Grass.bladeHeight * Grass.maxWindOffset with hmdef
  unfold Grass.clampDisplacement
  by_cases h : m < Grass.vecLen v
  · rw [if_pos h]
    have hL : Grass.vecLen v ≠ 0 := ne_of_gt (lt_trans hm h)
    simp only [if_neg hL]
    have hsc : (v.1 / Grass.vecLen v * m, v.2 / Grass.vecLen v * m) =
        ((v.1 * (m / Grass.vecLen v) : ℝ), (v.2 * (m / Grass.vecLen v) : ℝ)) := by
      rw [Prod.mk.injEq]
      constructor <;> ring
    have h0 : 0 ≤ m / Grass.vecLen v :=
      le_of_lt (div_pos hm (lt_trans hm h))
    rw [hsc, Grass.vecLen_scale, abs_of_nonneg h0, mul_comm,
      mul_comm (Grass.vecLen v), div_mul_cancel₀ _ hL]
  · rw [if_neg h]
    exact le_of_not_lt h

namespace WindField

theorem injectionWeight_pos (radius distSq : ℝ) : 0 < injectionWeight radius distSq :=
  Real.exp_pos _

theorem injectionWeight_le_one (radius distSq : ℝ) (h : 0 ≤ distSq) :
    injectionWeight radius distSq ≤ 1 := by
  have hr : (0 : ℝ) < max radius (1/100000) :=
    lt_of_lt_of_le (by norm_num) (le_max_right _ _)
  have hx : -(1/2) * distSq /
      (max radius (1/100000) * max radius (1/100000)) ≤ 0 := by
    apply div_nonpos_of_nonpos_of_nonneg
    · nlinarith
    · positivity
  unfold injectionWeight
  show Real.exp (-(1/2) * distSq /
      (max radius (1/100000) * max radius (1/100000))) ≤ 1
  calc Real.exp (-(1/2) * distSq /
        (max radius (1/100000) * max radius (1/100000)))
      ≤ Real.exp 0 := Real.exp_le_exp.mpr hx
    _ = 1 := Real.exp_zero

end WindField

/-- Claim C2 (amended): when the brush is active and the configured
injection strength and cap are nonnegative — as in every shipped
configuration — the impulse added to any texel has magnitude at most
`min(injectionStrength, injectionStrengthMax)` times the brush direction
magnitude, because the Gaussian weight lies in (0, 1]. -/
theorem c2_injection_bounded (strength strengthMax radius : ℝ)
    (bp uv bd : ℝ × ℝ)
    (_hb : WindField.brushActive bp)
    (hs : 0 ≤ strength) (hsm : 0 ≤ strengthMax) :
    Grass.vecLen (WindField.injectionTerm strength strengthMax radius bp uv bd) ≤
      min strength strengthMax * Grass.vecLen bd := by
  unfold WindField.injectionTerm
  set dSq := (uv.1 - bp.1) * (uv.1 - bp.1) + (uv.2 - bp.2) * (uv.2 - bp.2)
    with hdSq
  have hd : 0 ≤ dSq := by
    rw [hdSq]
    have := mul_self_nonneg (uv.1 - bp.1)
    have := mul_self_nonneg (uv.2 - bp.2)
    linarith
  set w := WindField.injectionWeight radius dSq with hw
  have hw1 : w ≤ 1 := WindField.injectionWeight_le_one radius dSq hd
  have hw0 : 0 < w := WindField.injectionWeight_pos radius dSq
  set s := min strength strengthMax with hs0
  have hsn : 0 ≤ s := le_min hs hsm
  show Grass.vecLen (bd.1 * (s * w), bd.2 * (s * w)) ≤ s * Grass.vecLen bd
  rw [Grass.vecLen_scale, abs_of_nonneg (mul_nonneg hsn (le_of_lt hw0))]
  have hlen := Grass.vecLen_nonneg bd
  nlinarith [mul_nonneg (mul_nonneg hsn hlen) (sub_nonneg.mpr hw1)]

/-- Witness for C2: the shipped configuration (strength 10, cap 1, radius
0.03) with the brush at the field center. -/
theorem c2_injection_bounded_witness :
    WindField.brushActive ((1:ℝ)/2, (1:ℝ)/2) ∧
    Grass.vecLen (WindField.injectionTerm 10 1 (3/100)
        ((1:ℝ)/2, (1:ℝ)/2) ((1:ℝ)/4, (1:ℝ)/4) ((1:ℝ), (0:ℝ))) ≤
      min (10:ℝ) 1 * Grass.vecLen ((1:ℝ), (0:ℝ)) :=
  ⟨⟨by norm_num, by norm_num, by norm_num, by norm_num⟩,
    c2_injection_bounded 10 1 (3/100) ((1:ℝ)/2, (1:ℝ)/2)
      ((1:ℝ)/4, (1:ℝ)/4) ((1:ℝ), (0:ℝ))
      ⟨by norm_num, by norm_num, by norm_num, by norm_num⟩
      (by norm_num) (by norm_num)⟩

/-- Counterexample for C2 as stated: a negative configured
`injectionStrength` (here -1, with cap 1) makes the bound fail at the
brush center, where the Gaussian weight is exactly 1: the injected impulse
has magnitude 1, but `min(injectionStrength, injectionStrengthMax)` times
the brush direction magnitude is -1. -/
theorem c2_negative_strength_counterexample :
    ¬ Grass.vecLen (WindField.injectionTerm (-1) 1 (3/100)
        ((1:ℝ)/2, (1:ℝ)/2) ((1:ℝ)/2, (1:ℝ)/2) ((1:ℝ), (0:ℝ))) ≤
      min (-1:ℝ) 1 * Grass.vecLen ((1:ℝ), (0:ℝ)) := by
  have hterm : WindField.injectionTerm (-1) 1 (3/100)
      ((1:ℝ)/2, (1:ℝ)/2) ((1:ℝ)/2, (1:ℝ)/2) ((1:ℝ), (0:ℝ)) =
      ((-1 : ℝ), (0 : ℝ)) := by
    unfold WindField.injectionTerm WindField.injectionWeight
    norm_num
  rw [hterm]
  have h1 : Grass.vecLen ((-1 : ℝ), (0 : ℝ)) = 1 := by
    unfold Grass.vecLen
    norm_num
  have h2 : Grass.vecLen ((1 : ℝ), (0 : ℝ)) = 1 := by
    unfold Grass.vecLen
    norm_num
  rw [h1, h2]
  norm_num

namespace WindField

theorem clampG_idem (x : ℚ) : clampG (clampG x 0 1) 0 1 = clampG x 0 1 := by
  unfold clampG
  have h0 : (0 : ℚ) ≤ min (max x 0) 1 := le_min (le_max_right x 0) zero_le_one
  rw [max_eq_left h0, min_assoc, min_self]

end WindField

/-- Claim C8: the simulation step applies decay and diffusion only through
`clamp(.., 0, 1)` — so out-of-range configuration behaves exactly like the
clamped configuration — and the injection Gaussian is
`exp(-0.5 * distSq / r^2)` with `r = max(injectionRadius, 1e-5)`, whose
squared denominator is strictly positive for every configured radius,
including zero. -/
theorem c8_step_numeric_guards :
    (∀ (n : ℕ) (decay diffusion advection dt : ℚ) (f : WindField.VelField n),
      WindField.stepNoBrush decay diffusion advection dt f =
        WindField.stepNoBrush (WindField.clampG decay 0 1)
          (WindField.clampG diffusion 0 1) advection dt f) ∧
    (∀ radius distSq : ℝ,
      WindField.injectionWeight radius distSq =
        Real.exp (-(1/2) * distSq / (max radius (1/100000)) ^ 2) ∧
      0 < (max radius (1/100000) : ℝ) ^ 2) := by
  constructor
  · intro n dec dif adv dt f
    funext i j
    simp only [WindField.stepNoBrush, WindField.clampG_idem]
  · intro radius distSq
    constructor
    · unfold WindField.injectionWeight
      rw [sq]
    · have hr : (0 : ℝ) < max radius (1/100000) :=
        lt_of_lt_of_le (by norm_num) (le_max_right _ _)
      positivity

namespace WindField

theorem normSq_nonneg (v : ℚ × ℚ) : 0 ≤ normSq v := by
  unfold normSq
  have := mul_self_nonneg v.1
  have := mul_self_nonneg v.2
  linarith

theorem le_maxNormSq {n : ℕ} (f : VelField n) (i j : Fin (n + 1)) :
    normSq (f i j) ≤ maxNormSq f :=
  Finset.le_sup' (fun p : Fin (n + 1) × Fin (n + 1) => normSq (f p.1 p.2))
    (Finset.mem_univ (i, j))

theorem maxNormSq_nonneg {n : ℕ} (f : VelField n) : 0 ≤ maxNormSq f :=
  le_trans (normSq_nonneg (f 0 0)) (le_maxNormSq f 0 0)

theorem lerpV_normSq_le {t M : ℚ} {a b : ℚ × ℚ}
    (ht0 : 0 ≤ t) (ht1 : t ≤ 1)
    (ha : normSq a ≤ M) (hb : normSq b ≤ M) :
    normSq (lerpV t a b) ≤ M := by
  obtain ⟨a1, a2⟩ := a
  obtain ⟨b1, b2⟩ := b
  unfold normSq lerpV at *
  dsimp only at *
  nlinarith [mul_nonneg (sub_nonneg.mpr ht1) (sub_nonneg.mpr ha),
    mul_nonneg ht0 (sub_nonneg.mpr hb),
    mul_nonneg (mul_nonneg ht0 (sub_nonneg.mpr ht1))
      (mul_self_nonneg (a1 - b1)),
    mul_nonneg (mul_nonneg ht0 (sub_nonneg.mpr ht1))
      (mul_self_nonneg (a2 - b2))]

theorem sampleVel_normSq_le {n : ℕ} (f : VelField n) (uv : ℚ × ℚ) :
    normSq (sampleVel f uv) ≤ maxNormSq f := by
  unfold sampleVel texelFetch
  have hfx0 := Int.fract_nonneg (uv.1 * ((n : ℚ) + 1) - 1/2)
  have hfx1 := le_of_lt (Int.fract_lt_one (uv.1 * ((n : ℚ) + 1) - 1/2))
  have hfy0 := Int.fract_nonneg (uv.2 * ((n : ℚ) + 1) - 1/2)
  have hfy1 := le_of_lt (Int.fract_lt_one (uv.2 * ((n : ℚ) + 1) - 1/2))
  exact lerpV_normSq_le hfy0 hfy1
    (lerpV_normSq_le hfx0 hfx1 (le_maxNormSq f _ _) (le_maxNormSq f _ _))
    (lerpV_normSq_le hfx0 hfx1 (le_maxNormSq f _ _) (le_maxNormSq f _ _))

theorem avg5_normSq_le {M : ℚ} {v0 v1 v2 v3 v4 : ℚ × ℚ}
    (h0 : normSq v0 ≤ M) (h1 : normSq v1 ≤ M) (h2 : normSq v2 ≤ M)
    (h3 : normSq v3 ≤ M) (h4 : normSq v4 ≤ M) :
    normSq ((v0.1 + v1.1 + v2.1 + v3.1 + v4.1) / 5,
      (v0.2 + v1.2 + v2.2 + v3.2 + v4.2) / 5) ≤ M := by
  have key : ((v0.1 + v1.1 + v2.1 + v3.1 + v4.1) / 5,
      (v0.2 + v1.2 + v2.2 + v3.2 + v4.2) / 5) =
      lerpV (1/5) (lerpV (1/2) (lerpV (1/2) v0 v1) (lerpV (1/2) v2 v3)) v4 := by
    simp only [lerpV, Prod.mk.injEq]
    constructor <;> ring
  rw [key]
  exact lerpV_normSq_le (by norm_num) (by norm_num)
    (lerpV_normSq_le (by norm_num) (by norm_num)
      (lerpV_normSq_le (by norm_num) (by norm_num) h0 h1)
      (lerpV_normSq_le (by norm_num) (by norm_num) h2 h3))
    h4

theorem normSq_scale (c : ℚ) (v : ℚ × ℚ) :
    normSq (v.1 * c, v.2 * c) = c ^ 2 * normSq v := by
  unfold normSq
  ring

theorem clampG01_nonneg (x : ℚ) : 0 ≤ clampG x 0 1 :=
  le_min (le_max_right x 0) zero_le_one

theorem clampG01_le_one (x : ℚ) : clampG x 0 1 ≤ 1 :=
  min_le_right _ _

theorem stepNoBrush_maxNormSq_le {n : ℕ}
    (decay diffusion advection dt : ℚ) (f : VelField n) :
    maxNormSq (stepNoBrush decay diffusion advection dt f) ≤
      clampG decay 0 1 ^ 2 * maxNormSq f := by
  apply Finset.sup'_le
  intro p _
  show normSq (stepNoBrush decay diffusion advection dt f p.1 p.2) ≤ _
  simp only [stepNoBrush]
  rw [normSq_scale]
  apply mul_le_mul_of_nonneg_left _ (sq_nonneg _)
  apply lerpV_normSq_le (clampG01_nonneg diffusion) (clampG01_le_one diffusion)
    (sampleVel_normSq_le f _)
  exact avg5_normSq_le (sampleVel_normSq_le f _) (sampleVel_normSq_le f _)
    (sampleVel_normSq_le f _) (sampleVel_normSq_le f _)
    (sampleVel_normSq_le f _)

theorem stepNoBrush_zeroField {n : ℕ} (decay diffusion advection dt : ℚ) :
    stepNoBrush decay diffusion advection dt (zeroField n) = zeroField n := by
  funext i j
  simp only [stepNoBrush, sampleVel, texelFetch, zeroField, lerpV,
    Prod.mk.injEq]
  norm_num

end WindField

/-- Claim C1 (amended): with the brush inactive, the maximum squared
velocity magnitude contracts by at least `clamp(decay, 0, 1)^2` per step —
so after `k` steps it is below `clamp(decay, 0, 1)^(2k)` times its initial
value (geometric convergence to zero whenever `decay < 1`) and never
increases. The decrease is not strict in general: the zero field is a
fixed point. -/
theorem c1_decay_contraction {n : ℕ}
    (decay diffusion advection dt : ℚ) (f : WindField.VelField n) (k : ℕ) :
    WindField.maxNormSq
        ((WindField.stepNoBrush decay diffusion advection dt)^[k] f) ≤
      WindField.clampG decay 0 1 ^ (2 * k) * WindField.maxNormSq f ∧
    WindField.maxNormSq (WindField.stepNoBrush decay diffusion advection dt f) ≤
      WindField.maxNormSq f := by
  have hone : ∀ g : WindField.VelField n,
      WindField.maxNormSq
          (WindField.stepNoBrush decay diffusion advection dt g) ≤
        WindField.clampG decay 0 1 ^ 2 * WindField.maxNormSq g :=
    fun g => WindField.stepNoBrush_maxNormSq_le decay diffusion advection dt g
  have hd0 : 0 ≤ WindField.clampG decay 0 1 := WindField.clampG01_nonneg decay
  have hd1 : WindField.clampG decay 0 1 ≤ 1 := WindField.clampG01_le_one decay
  have hsq : WindField.clampG decay 0 1 ^ 2 ≤ 1 := by nlinarith
  constructor
  · induction k with
    | zero => simp
    | succ m ih =>
      rw [Function.iterate_succ_apply']
      calc WindField.maxNormSq (WindField.stepNoBrush decay diffusion advection
            dt ((WindField.stepNoBrush decay diffusion advection dt)^[m] f))
          ≤ WindField.clampG decay 0 1 ^ 2 * WindField.maxNormSq
            ((WindField.stepNoBrush decay diffusion advection dt)^[m] f) :=
            hone _
        _ ≤ WindField.clampG decay 0 1 ^ 2 *
            (WindField.clampG decay 0 1 ^ (2 * m) * WindField.maxNormSq f) :=
            mul_le_mul_of_nonneg_left ih (sq_nonneg _)
        _ = WindField.clampG decay 0 1 ^ (2 * (m + 1)) *
            WindField.maxNormSq f := by ring
  · refine le_trans (hone f) ?_
    nlinarith [mul_nonneg (sub_nonneg.mpr hsq) (WindField.maxNormSq_nonneg f)]

/-- Counterexample for C1 as stated: at the default configuration
(decay 0.95, diffusion 0.2, advection 1, dt 0.016) the zero field is a
fixed point of the brushless step on a 2x2 field, so its velocity
magnitude does not strictly decrease. -/
theorem c1_strict_decrease_fails_on_zero :
    ¬ WindField.maxNormSq
        (WindField.stepNoBrush (19/20) (1/5) 1 (2/125) (WindField.zeroField 1)) <
      WindField.maxNormSq (WindField.zeroField 1) := by
  rw [WindField.stepNoBrush_zeroField]
  exact lt_irrefl _
